import Mathlib

/-!
Shallow embedding of the EdgeVisionX frame-acquisition node
(`edgevisionx/nodes/base.py` and `edgevisionx/nodes/input_nodes.py`).

The video driver (cv2) is an external collaborator; it is modelled as an
environment that says, per source, whether opening succeeds and what the
n-th read of a freshly opened capture delivers.  A failed read delivers
`none` (cv2 returns `(False, None)`).  Python exceptions are modelled with
`Except`; state mutations that happen before a raise are kept in the
returned state, exactly as the surviving object attributes in Python.
-/

/-- Camera source: an integer device index or a path/URL string
(`config.get("source", 0)` in `CameraNode.setup`). -/
abbrev Source := Int ⊕ String

/-- Image buffer, abstracted to its dimensions (the only part the node
inspects, via `frame.shape`). -/
structure Frame where
  height : Nat
  width : Nat
  channels : Nat
deriving DecidableEq

/-- Behaviour of the driver layer: whether `cv2.VideoCapture(source)` opens,
and the stream of read results a freshly opened capture yields (`none`
models a failed read, which in cv2 returns `(False, None)`). -/
structure DeviceEnv where
  opens : Source → Bool
  frames : Source → Nat → Option Frame

/-- State of one `cv2.VideoCapture` object: whether `isOpened()` holds, the
result stream, how many reads were already consumed, and the last values
requested through `cap.set` (best effort, recorded only). -/
structure Device where
  openedOk : Bool
  frames : Nat → Option Frame
  pos : Nat
  propW : Int
  propH : Int
  propFps : Int

/-- Model of `cap.read()`: a read on a capture that is not opened fails;
otherwise the next element of the stream is delivered.  The internal
position advances either way. -/
def Device.read (d : Device) : Option Frame × Device :=
  (if d.openedOk then d.frames d.pos else none, { d with pos := d.pos + 1 })

/-- Health values stored in the `health_status` metric. -/
inductive Health where
  | initializing
  | healthy
  | error
deriving DecidableEq

/-- Severity of a log call on the logging collaborator. -/
inductive LogLevel where
  | error
  | warning
  | info
  | debug
deriving DecidableEq

/-- One message sent to the logging collaborator. -/
abbrev LogEntry := LogLevel × String

/-- Python exceptions that the embedded code can raise. -/
inductive PyError where
  | attributeError (attr : String)
  | keyError (key : String)
  | typeError (msg : String)
deriving DecidableEq

/-- Configuration dictionary: only the keys `CameraNode` reads, each
optional (`config.get` with a default). -/
structure NodeConfig where
  name : Option String
  source : Option Source
  width : Option Int
  height : Option Int
  fps : Option Int
deriving DecidableEq

/-- The `_metrics` dictionary.  Each field is `none` while the key is
absent (the dict starts empty in `Node.__init__` and is populated by
`CameraNode.setup`). -/
structure Metrics where
  fps_actual : Option Nat
  health_status : Option Health
  frame_count : Option Nat
deriving DecidableEq

/-- Attributes of a `CameraNode` instance.  `initFlag` models
`_initialized`.  Optional fields model attributes that exist only after
`setup` ran (`none` means the attribute is absent and reading it raises
`AttributeError`).  `cap` distinguishes the absent attribute (`none`),
`self.cap = None` (`some none`) and a held capture object
(`some (some d)`).  `frameBufferSet` records that `setup` assigned the
always-`None` attribute `_frame_buffer`. -/
structure NodeState where
  config : NodeConfig
  name : String
  initFlag : Bool
  metrics : Metrics
  source : Option Source
  target_width : Option Int
  target_height : Option Int
  target_fps : Option Int
  cap : Option (Option Device)
  frameBufferSet : Bool

/-- Output dictionary of a successful `CameraNode.__call__`.  The
timestamp is the whole-second clock reading passed to the call. -/
structure FrameRecord where
  frame : Frame
  frame_id : Nat
  timestamp : Nat
  shape : Nat × Nat × Nat
deriving DecidableEq

/-- Model of `Node.__init__`: store the config, resolve the display name
(`config.get("name", self.__class__.__name__)`), clear the initialized
flag and start with an empty metrics dict.  No capture attribute exists
yet. -/
def Node.init (cfg : NodeConfig) : NodeState :=
  { config := cfg
    name := cfg.name.getD "CameraNode"
    initFlag := false
    metrics := { fps_actual := none, health_status := none, frame_count := none }
    source := none
    target_width := none
    target_height := none
    target_fps := none
    cap := none
    frameBufferSet := false }

/-- Model of the warm-up loop in `CameraNode._open_camera`: perform up to
`n` reads, stopping with `false` at the first failed read. -/
def warmupLoop : Device → Nat → Bool × Device
  | d, 0 => (true, d)
  | d, n + 1 =>
    match d.read with
    | (some _, d') => warmupLoop d' n
    | (none, d') => (false, d')

/-- Model of `CameraNode._open_camera`.  A fresh capture object is stored
in `self.cap` unconditionally; if it is not opened the method returns
`false` at once.  Otherwise width/height/fps are applied via `cap.set`,
5 warm-up reads are performed (a failure logs a warning and returns
`false`), and on full success `health_status` is set to `healthy`. -/
def CameraNode.openCamera (env : DeviceEnv) (src : Source) (w hh fps : Int)
    (s : NodeState) : Bool × NodeState × List LogEntry :=
  let d0 : Device :=
    { openedOk := env.opens src, frames := env.frames src, pos := 0
      propW := 0, propH := 0, propFps := 0 }
  if d0.openedOk then
    let d1 : Device := { d0 with propW := w, propH := hh, propFps := fps }
    match warmupLoop d1 5 with
    | (true, d2) =>
      (true,
       { s with cap := some (some d2)
                metrics := { s.metrics with health_status := some Health.healthy } },
       [])
    | (false, d2) =>
      (false, { s with cap := some (some d2) },
       [(LogLevel.warning, "Camera opened but failed to read frames during warmup")])
  else
    (false, { s with cap := some (some d0) }, [])

/-- Model of `CameraNode.setup`: read the tunables with their defaults,
reset `self.cap` to `None`, assign `_frame_buffer`, populate the metrics
dict with `fps_actual = 0`, `health_status = initializing` and
`frame_count = 0`, run `_open_camera` (logging an error if it reports
failure) and finally mark the node initialized.  The Python method raises
on no path, which the total return type records. -/
def CameraNode.setup (env : DeviceEnv) (s : NodeState) : NodeState × List LogEntry :=
  let src := s.config.source.getD (Sum.inl 0)
  let w := s.config.width.getD 640
  let hh := s.config.height.getD 480
  let fps := s.config.fps.getD 30
  let s1 : NodeState :=
    { s with source := some src
             target_width := some w
             target_height := some hh
             target_fps := some fps
             cap := some none
             frameBufferSet := true
             metrics := { s.metrics with fps_actual := some 0
                                         health_status := some Health.initializing
                                         frame_count := some 0 } }
  match CameraNode.openCamera env src w hh fps s1 with
  | (true, s2, logs) => ({ s2 with initFlag := true }, logs)
  | (false, s2, logs) =>
    ({ s2 with initFlag := true },
     logs ++ [(LogLevel.error,
       "Failed to open camera source. Make sure the camera is connected and accessible.")])

/-- Model of `CameraNode.__call__`.  Reading `self.cap` raises
`AttributeError` if the attribute does not exist (fresh node) or is `None`
(after teardown).  On a failed read the code sets `health_status = error`
and logs, still increments `frame_count`, and then raises
`AttributeError` while building the output dict, because `frame` is `None`
and `frame.shape` is evaluated.  On a successful read `frame_count` is
incremented and the post-increment value is used as `frame_id`.  `now` is
the whole-second clock reading used for the timestamp. -/
def CameraNode.call (now : Nat) (s : NodeState) :
    NodeState × List LogEntry × Except PyError FrameRecord :=
  match s.cap with
  | none => (s, [], Except.error (PyError.attributeError "cap"))
  | some none => (s, [], Except.error (PyError.attributeError "read"))
  | some (some d) =>
    let rd := d.read
    let s1 : NodeState := { s with cap := some (some rd.2) }
    match rd.1 with
    | none =>
      let s2 : NodeState :=
        { s1 with metrics := { s1.metrics with health_status := some Health.error } }
      let logs : List LogEntry :=
        [(LogLevel.error, "Failed to grab frame from camera. Camera may be disconnected.")]
      match s2.metrics.frame_count with
      | none => (s2, logs, Except.error (PyError.keyError "frame_count"))
      | some c =>
        ({ s2 with metrics := { s2.metrics with frame_count := some (c + 1) } },
         logs, Except.error (PyError.attributeError "shape"))
    | some f =>
      match s1.metrics.frame_count with
      | none => (s1, [], Except.error (PyError.keyError "frame_count"))
      | some c =>
        ({ s1 with metrics := { s1.metrics with frame_count := some (c + 1) } },
         [],
         Except.ok { frame := f, frame_id := c + 1, timestamp := now
                     shape := (f.height, f.width, f.channels) })

/-- Model of `CameraNode.teardown`: reading `self.cap` raises
`AttributeError` on a fresh node; otherwise the capture object, if any,
is released and the reference cleared, and a second call finds `None`
and does nothing. -/
def CameraNode.teardown (s : NodeState) : Except PyError NodeState :=
  match s.cap with
  | none => Except.error (PyError.attributeError "cap")
  | some none => Except.ok s
  | some (some _) => Except.ok { s with cap := some none }

/-- Model of `copy.deepcopy` on the `cap` attribute: plain data is copied
to an equal value, but a `cv2.VideoCapture` object defines no deepcopy or
pickle support, so `copy.deepcopy` raises
`TypeError: cannot pickle cv2.VideoCapture object` whenever a capture
object is held (opened or not). -/
def deepcopyCap : Option (Option Device) → Except PyError (Option (Option Device))
  | none => Except.ok none
  | some none => Except.ok (some none)
  | some (some _) =>
    Except.error (PyError.typeError "cannot pickle cv2.VideoCapture object")

/-- Model of `Node.clone`, which is `copy.deepcopy(self)`: every plain
attribute (config, metrics, scalars) is copied to an equal value, the
logger deep-copies to the registry singleton, and the whole copy raises
iff deep-copying the `cap` attribute raises. -/
def Node.clone (s : NodeState) : Except PyError NodeState :=
  (deepcopyCap s.cap).map (fun c => { s with cap := c })

/-- Run `n` consecutive `__call__` invocations, collecting each result in
call order (exceptions included) and threading the node state. -/
def runCalls (now : Nat) : NodeState → Nat → NodeState × List (Except PyError FrameRecord)
  | s, 0 => (s, [])
  | s, n + 1 =>
    let r := CameraNode.call now s
    let rest := runCalls now r.1 n
    (rest.1, r.2.2 :: rest.2)

/-- Observed frame identifier of one call result (`none` for a raise). -/
def resultId : Except PyError FrameRecord → Option Nat
  | Except.ok r => some r.frame_id
  | Except.error _ => none

/-- Fixture: empty configuration, all defaults apply. -/
def cfg0 : NodeConfig :=
  { name := none, source := none, width := none, height := none, fps := none }

/-- Fixture: a driver on which every source opens and every read delivers
a 640x480 BGR frame. -/
def goodEnv : DeviceEnv :=
  { opens := fun _ => true, frames := fun _ _ => some ⟨480, 640, 3⟩ }

/-- Fixture: a driver on which no source can be opened. -/
def badOpenEnv : DeviceEnv :=
  { opens := fun _ => false, frames := fun _ _ => none }

/-- Fixture: a capture object that is open but whose every read fails
(disconnected camera). -/
def deadDevice : Device :=
  { openedOk := true, frames := fun _ => none, pos := 0
    propW := 640, propH := 480, propFps := 30 }

/-- Fixture: a node that completed setup and now holds `deadDevice`. -/
def nodeWithDeadDevice : NodeState :=
  { config := cfg0
    name := "CameraNode"
    initFlag := true
    metrics := { fps_actual := some 0, health_status := some Health.healthy
                 frame_count := some 0 }
    source := some (Sum.inl 0)
    target_width := some 640
    target_height := some 480
    target_fps := some 30
    cap := some (some deadDevice)
    frameBufferSet := true }

/-- Fixture: same node after a read failure drove it to `error`. -/
def errNode : NodeState :=
  { nodeWithDeadDevice with
    metrics := { fps_actual := some 0, health_status := some Health.error
                 frame_count := some 1 } }

/-- The warm-up loop succeeds exactly when the next `n` stream positions
of an opened capture all deliver a frame, and then it consumes exactly
`n` reads. -/
theorem warmupLoop_pos (n : Nat) : ∀ (d : Device), d.openedOk = true →
    (∀ i, i < n → (d.frames (d.pos + i)).isSome = true) →
    warmupLoop d n = (true, { d with pos := d.pos + n }) := by
  induction n with
  | zero => intro d _ _; simp [warmupLoop]
  | succ n ih =>
    intro d ho h
    have h0 : (d.frames d.pos).isSome = true := by
      have := h 0 (Nat.succ_pos n)
      simpa using this
    obtain ⟨f, hf⟩ := Option.isSome_iff_exists.mp h0
    have hrest := ih { d with pos := d.pos + 1 } (by simpa using ho) ?_
    · simp only at hrest
      rw [ho] at hrest
      simp only [warmupLoop, Device.read, ho, if_pos, hf]
      rw [hrest]
      have h1 : d.pos + 1 + n = d.pos + (n + 1) := by omega
      rw [h1]
    · intro i hi
      have h2 : d.pos + 1 + i = d.pos + (i + 1) := by omega
      rw [h2]
      exact h (i + 1) (by omega)

/-- If the warm-up loop reports success on an opened capture then every
one of the `n` attempted reads delivered a frame. -/
theorem warmupLoop_true_all (n : Nat) : ∀ (d : Device), d.openedOk = true →
    (warmupLoop d n).1 = true →
    ∀ i, i < n → (d.frames (d.pos + i)).isSome = true := by
  induction n with
  | zero => intro d _ _ i hi; omega
  | succ n ih =>
    intro d ho hloop i hi
    cases hf : d.frames d.pos with
    | none =>
      exfalso
      simp [warmupLoop, Device.read, ho, hf] at hloop
    | some f =>
      have hstep : warmupLoop d (n + 1) = warmupLoop { d with pos := d.pos + 1 } n := by
        simp [warmupLoop, Device.read, ho, hf]
      rcases Nat.eq_zero_or_pos i with hz | hpos
      · subst hz; simp [hf]
      · have := ih { d with pos := d.pos + 1 } (by simpa using ho)
          (by rw [hstep] at hloop; exact hloop) (i - 1) (by omega)
        have h2 : d.pos + 1 + (i - 1) = d.pos + i := by omega
        rw [h2] at this
        exact this

/-- Closed form of `_open_camera` when the device cannot be opened: the
unopened capture object is stored, the method reports failure at once,
logs nothing itself and touches no metric. -/
theorem openCamera_open_fail (env : DeviceEnv) (src : Source) (w hh fps : Int)
    (s : NodeState) (h : env.opens src = false) :
    CameraNode.openCamera env src w hh fps s =
      (false,
       { s with cap := some (some
           { openedOk := false, frames := env.frames src, pos := 0
             propW := 0, propH := 0, propFps := 0 }) },
       []) := by
  simp [CameraNode.openCamera, h]

/-- Closed form of `_open_camera` when the device opens and all 5 warm-up
reads deliver a frame: the capture is stored with 5 reads consumed and the
requested properties applied, `health_status` is set to `healthy` and the
method reports success. -/
theorem openCamera_success (env : DeviceEnv) (src : Source) (w hh fps : Int)
    (s : NodeState) (ho : env.opens src = true)
    (hw : ∀ i, i < 5 → (env.frames src i).isSome = true) :
    CameraNode.openCamera env src w hh fps s =
      (true,
       { s with cap := some (some
           { openedOk := true, frames := env.frames src, pos := 5
             propW := w, propH := hh, propFps := fps })
                metrics := { s.metrics with health_status := some Health.healthy } },
       []) := by
  have hwl := warmupLoop_pos 5
    { openedOk := true, frames := env.frames src, pos := 0
      propW := w, propH := hh, propFps := fps } rfl (by simpa using hw)
  simp only at hwl
  simp [CameraNode.openCamera, ho, hwl]

/-- Whenever the open fails or some of the 5 warm-up reads fails,
`_open_camera` reports failure and leaves the metrics dict untouched. -/
theorem openCamera_fail_metrics (env : DeviceEnv) (src : Source) (w hh fps : Int)
    (s : NodeState)
    (h : env.opens src = false ∨ ∃ i, i < 5 ∧ env.frames src i = none) :
    (CameraNode.openCamera env src w hh fps s).1 = false ∧
    (CameraNode.openCamera env src w hh fps s).2.1.metrics = s.metrics := by
  cases hop : env.opens src with
  | false => rw [openCamera_open_fail env src w hh fps s hop]; exact ⟨rfl, rfl⟩
  | true =>
    rcases h with h | ⟨i, hi, hnone⟩
    · rw [hop] at h; cases h
    · rcases hwl : warmupLoop
        { openedOk := true, frames := env.frames src, pos := 0
          propW := w, propH := hh, propFps := fps } 5 with ⟨b, d2⟩
      cases b with
      | true =>
        exfalso
        have hall := warmupLoop_true_all 5
          { openedOk := true, frames := env.frames src, pos := 0
            propW := w, propH := hh, propFps := fps } rfl (by rw [hwl]) i hi
        simp only at hall
        rw [Nat.zero_add, hnone] at hall
        cases hall
      | false =>
        constructor <;> simp [CameraNode.openCamera, hop, hwl]

/-- Equation form of `openCamera_fail_metrics`, convenient after `split`. -/
theorem openCamera_fail_eq (env : DeviceEnv) (src : Source) (w hh fps : Int)
    (s : NodeState) (b : Bool) (s2 : NodeState) (logs : List LogEntry)
    (heq : CameraNode.openCamera env src w hh fps s = (b, s2, logs))
    (h : env.opens src = false ∨ ∃ i, i < 5 ∧ env.frames src i = none) :
    b = false ∧ s2.metrics = s.metrics := by
  have hfm := openCamera_fail_metrics env src w hh fps s h
  rw [heq] at hfm
  exact hfm

/-- Setup always ends with the initialized flag set, on success and on
every failure path alike. -/
theorem setup_initFlag (env : DeviceEnv) (s : NodeState) :
    (CameraNode.setup env s).1.initFlag = true := by
  unfold CameraNode.setup
  dsimp only
  split <;> rfl

/-- If the open fails or some warm-up read fails, setup leaves the
`health_status` metric at `initializing`, the value it wrote before
calling `_open_camera`. -/
theorem setup_fail_health (env : DeviceEnv) (s : NodeState)
    (h : env.opens (s.config.source.getD (Sum.inl 0)) = false ∨
         ∃ i, i < 5 ∧ env.frames (s.config.source.getD (Sum.inl 0)) i = none) :
    (CameraNode.setup env s).1.metrics.health_status
      = some Health.initializing := by
  unfold CameraNode.setup
  dsimp only
  split
  case _ s2 logs heq =>
    exfalso
    obtain ⟨hb, _⟩ := openCamera_fail_eq env _ _ _ _ _ _ _ _ heq h
    exact Bool.true_eq_false.mp hb
  case _ s2 logs heq =>
    obtain ⟨_, hm⟩ := openCamera_fail_eq env _ _ _ _ _ _ _ _ heq h
    simp only at hm
    simp [hm]

/-- State of the node after a fully successful setup: the capture object
is held with 5 warm-up reads consumed, `frame_count` starts at 0 and the
node is `healthy`. -/
theorem setup_success_state (env : DeviceEnv) (s : NodeState)
    (ho : env.opens (s.config.source.getD (Sum.inl 0)) = true)
    (hw : ∀ i, i < 5 → (env.frames (s.config.source.getD (Sum.inl 0)) i).isSome = true) :
    (CameraNode.setup env s).1.cap
        = some (some
            { openedOk := true
              frames := env.frames (s.config.source.getD (Sum.inl 0))
              pos := 5
              propW := s.config.width.getD 640
              propH := s.config.height.getD 480
              propFps := s.config.fps.getD 30 }) ∧
    (CameraNode.setup env s).1.metrics.frame_count = some 0 ∧
    (CameraNode.setup env s).1.metrics.health_status = some Health.healthy := by
  unfold CameraNode.setup
  dsimp only
  rw [openCamera_success env _ _ _ _ _ ho hw]
  exact ⟨rfl, rfl, rfl⟩

/-- Closed form of one `__call__` on a node holding an opened capture
whose next read delivers a frame: the read position advances, the frame
counter is incremented, nothing is logged and the output record carries
the post-increment counter as `frame_id`. -/
theorem call_success_step (now : Nat) (s : NodeState) (d : Device) (f : Frame)
    (c : Nat) (hcap : s.cap = some (some d)) (ho : d.openedOk = true)
    (hf : d.frames d.pos = some f) (hc : s.metrics.frame_count = some c) :
    CameraNode.call now s =
      ({ s with cap := some (some { d with pos := d.pos + 1 })
                metrics := { s.metrics with frame_count := some (c + 1) } },
       [],
       Except.ok { frame := f, frame_id := c + 1, timestamp := now
                   shape := (f.height, f.width, f.channels) }) := by
  unfold CameraNode.call
  rw [hcap]
  dsimp only [Device.read]
  rw [ho]
  simp only [if_true, hf, hc]

/-- One `__call__` never moves `health_status` away from `error`: the
failure path writes `error` and the success path leaves the field
untouched. -/
theorem call_preserves_error (now : Nat) (s : NodeState)
    (h : s.metrics.health_status = some Health.error) :
    ((CameraNode.call now s).1).metrics.health_status = some Health.error := by
  unfold CameraNode.call
  rcases hc : s.cap with _ | cap1
  · simpa using h
  · rcases cap1 with _ | d
    · simpa using h
    · dsimp only [Device.read]
      rcases ho : d.openedOk with _ | _
      · simp only [Bool.false_eq_true, if_false]
        rcases hfc : s.metrics.frame_count with _ | c <;> simp [hfc]
      · simp only [if_true]
        rcases hf : d.frames d.pos with _ | f
        · rcases hfc : s.metrics.frame_count with _ | c <;> simp [hfc]
        · rcases hfc : s.metrics.frame_count with _ | c <;> simp [hfc, h]

/-- Any number of consecutive `__call__` invocations keeps an `error`
health status in place. -/
theorem runCalls_preserves_error (now : Nat) (n : Nat) : ∀ (s : NodeState),
    s.metrics.health_status = some Health.error →
    ((runCalls now s n).1).metrics.health_status = some Health.error := by
  induction n with
  | zero => intro s h; simpa [runCalls] using h
  | succ n ih =>
    intro s h
    simp only [runCalls]
    exact ih _ (call_preserves_error now s h)

/-- A `__call__` result reports `healthy` only if the node was already
`healthy` before the call: no invocation path ever writes `healthy`. -/
theorem call_no_new_healthy (now : Nat) (s : NodeState)
    (h : ((CameraNode.call now s).1).metrics.health_status = some Health.healthy) :
    s.metrics.health_status = some Health.healthy := by
  revert h
  unfold CameraNode.call
  rcases hc : s.cap with _ | cap1
  · simp
  · rcases cap1 with _ | d
    · simp
    · dsimp only [Device.read]
      rcases ho : d.openedOk with _ | _
      · simp only [Bool.false_eq_true, if_false]
        rcases hfc : s.metrics.frame_count with _ | c <;> simp [hfc]
      · simp only [if_true]
        rcases hf : d.frames d.pos with _ | f
        · rcases hfc : s.metrics.frame_count with _ | c <;> simp [hfc]
        · rcases hfc : s.metrics.frame_count with _ | c <;> simp [hfc]

/-- Frame identifiers produced by `n` consecutive calls on a node holding
an opened capture whose next `n` reads all deliver frames: starting from
counter `c`, the observed identifiers are `c+1, c+2, ..., c+n` in call
order. -/
theorem runCalls_ids (now : Nat) (n : Nat) : ∀ (s : NodeState) (d : Device) (c : Nat),
    s.cap = some (some d) → d.openedOk = true → s.metrics.frame_count = some c →
    (∀ i, i < n → (d.frames (d.pos + i)).isSome = true) →
    (runCalls now s n).2.map resultId
      = (List.range n).map (fun i => some (c + 1 + i)) := by
  induction n with
  | zero => intro s d c _ _ _ _; simp [runCalls]
  | succ n ih =>
    intro s d c hcap ho hc hreads
    have h0 : (d.frames d.pos).isSome = true := by
      have := hreads 0 (Nat.succ_pos n)
      simpa using this
    obtain ⟨f, hf⟩ := Option.isSome_iff_exists.mp h0
    have hstep := call_success_step now s d f c hcap ho hf hc
    have hrest := ih
      { s with cap := some (some { d with pos := d.pos + 1 })
               metrics := { s.metrics with frame_count := some (c + 1) } }
      { d with pos := d.pos + 1 } (c + 1) rfl ho rfl ?_
    · dsimp only at hrest
      simp only [runCalls, hstep, List.map_cons]
      rw [hrest]
      simp only [resultId, List.range_succ_eq_map, List.map_cons, List.map_map]
      congr 1
      apply List.map_congr_left
      simp only [Function.comp_apply, Option.some.injEq, List.mem_range]
      intro i _
      omega
    · intro i hi
      have h2 : d.pos + 1 + i = d.pos + (i + 1) := by omega
      rw [h2]
      exact hreads (i + 1) (by omega)

/-- When the open fails, the only message setup emits is the error about
the camera source (the warm-up warning never fires). -/
theorem setup_open_fail_logs (env : DeviceEnv) (s : NodeState)
    (h : env.opens (s.config.source.getD (Sum.inl 0)) = false) :
    (CameraNode.setup env s).2 =
      [(LogLevel.error,
        "Failed to open camera source. Make sure the camera is connected and accessible.")] := by
  unfold CameraNode.setup
  dsimp only
  rw [openCamera_open_fail env _ _ _ _ _ h]
  rfl

/-- C1 counterexample: with the default configuration against a driver
that cannot open any source, the open fails, yet at the end of setup the
`health_status` metric equals `initializing`, not `error`.  This refutes
the claim that a failed open or warm-up leaves `health_status = error`. -/
theorem setup_open_failure_not_error_counterexample :
    badOpenEnv.opens (cfg0.source.getD (Sum.inl 0)) = false ∧
    (CameraNode.setup badOpenEnv (Node.init cfg0)).1.metrics.health_status
      = some Health.initializing ∧
    (CameraNode.setup badOpenEnv (Node.init cfg0)).1.metrics.health_status
      ≠ some Health.error := by
  refine ⟨by decide, by decide, by decide⟩

/-- C1 (amended): for every configuration, if the open fails or any of
the 5 warm-up reads fails, then at the end of setup the `health_status`
metric equals `initializing` — setup never writes `error`. -/
theorem setup_failure_health_stays_initializing (env : DeviceEnv) (cfg : NodeConfig)
    (h : env.opens (cfg.source.getD (Sum.inl 0)) = false ∨
         ∃ i, i < 5 ∧ env.frames (cfg.source.getD (Sum.inl 0)) i = none) :
    (CameraNode.setup env (Node.init cfg)).1.metrics.health_status
      = some Health.initializing :=
  setup_fail_health env (Node.init cfg) h

/-- C1 witness: the amended statement applied to the concrete failing
driver and the default configuration. -/
theorem setup_failure_health_stays_initializing_witness :
    (badOpenEnv.opens (cfg0.source.getD (Sum.inl 0)) = false ∨
     ∃ i, i < 5 ∧ badOpenEnv.frames (cfg0.source.getD (Sum.inl 0)) i = none) ∧
    (CameraNode.setup badOpenEnv (Node.init cfg0)).1.metrics.health_status
      = some Health.initializing :=
  ⟨Or.inl (by decide),
   setup_failure_health_stays_initializing badOpenEnv cfg0 (Or.inl (by decide))⟩

/-- C2: whenever the device read inside `__call__` fails, the node sets
`health_status = error`, sends an error-level log message, and the call
raises (here: returns an `Except.error`), so no frame record built from
an absent frame is ever returned to the caller. -/
theorem call_read_failure_reports_error (now : Nat) (s : NodeState) (d : Device)
    (hcap : s.cap = some (some d)) (hfail : (d.read).1 = none) :
    ((CameraNode.call now s).1).metrics.health_status = some Health.error ∧
    (∃ m, (LogLevel.error, m) ∈ (CameraNode.call now s).2.1) ∧
    (∃ e, (CameraNode.call now s).2.2 = Except.error e) := by
  unfold CameraNode.call
  rw [hcap]
  dsimp only
  rw [hfail]
  rcases hfc : s.metrics.frame_count with _ | c <;> simp [hfc]

/-- C2 witness: a node holding an opened capture whose reads all fail. -/
theorem call_read_failure_reports_error_witness :
    nodeWithDeadDevice.cap = some (some deadDevice) ∧
    (deadDevice.read).1 = none ∧
    (((CameraNode.call 0 nodeWithDeadDevice).1).metrics.health_status = some Health.error ∧
     (∃ m, (LogLevel.error, m) ∈ (CameraNode.call 0 nodeWithDeadDevice).2.1) ∧
     (∃ e, (CameraNode.call 0 nodeWithDeadDevice).2.2 = Except.error e)) :=
  ⟨rfl, rfl, call_read_failure_reports_error 0 nodeWithDeadDevice deadDevice rfl rfl⟩

/-- C3: at the end of setup the `health_status` metric equals `healthy`
exactly when the device opened and all 5 warm-up reads (the model
performs exactly 5, mirroring `range(5)`) delivered a frame. -/
theorem setup_healthy_iff_open_and_five_warmup_reads (env : DeviceEnv) (cfg : NodeConfig) :
    (CameraNode.setup env (Node.init cfg)).1.metrics.health_status = some Health.healthy
      ↔ (env.opens (cfg.source.getD (Sum.inl 0)) = true ∧
         ∀ i, i < 5 → (env.frames (cfg.source.getD (Sum.inl 0)) i).isSome = true) := by
  constructor
  · intro hh
    by_cases ho : env.opens (cfg.source.getD (Sum.inl 0)) = true
    · refine ⟨ho, ?_⟩
      by_cases hw : ∀ i, i < 5 → (env.frames (cfg.source.getD (Sum.inl 0)) i).isSome = true
      · exact hw
      · exfalso
        push_neg at hw
        obtain ⟨i, hi, hnot⟩ := hw
        have hnone : env.frames (cfg.source.getD (Sum.inl 0)) i = none := by
          cases hx : env.frames (cfg.source.getD (Sum.inl 0)) i
          · rfl
          · rw [hx] at hnot; simp at hnot
        have hinit := setup_fail_health env (Node.init cfg) (Or.inr ⟨i, hi, hnone⟩)
        rw [hinit] at hh
        simp at hh
    · exfalso
      have ho2 : env.opens (cfg.source.getD (Sum.inl 0)) = false := by
        cases hx : env.opens (cfg.source.getD (Sum.inl 0))
        · rfl
        · exact absurd hx ho
      have hinit := setup_fail_health env (Node.init cfg) (Or.inl ho2)
      rw [hinit] at hh
      simp at hh
  · rintro ⟨ho, hw⟩
    exact (setup_success_state env (Node.init cfg) ho hw).2.2

/-- C4: after a setup in which the open and all 5 warm-up reads succeed,
`frame_count` starts at 0, and a sequence of `n` invocations whose device
reads all succeed yields `frame_id` values exactly `1..n` in call order,
each call using the post-increment counter as its identifier. -/
theorem camera_frame_ids_one_to_n (env : DeviceEnv) (cfg : NodeConfig) (n now : Nat)
    (ho : env.opens (cfg.source.getD (Sum.inl 0)) = true)
    (hw : ∀ i, i < 5 → (env.frames (cfg.source.getD (Sum.inl 0)) i).isSome = true)
    (hrun : ∀ i, i < n → (env.frames (cfg.source.getD (Sum.inl 0)) (5 + i)).isSome = true) :
    (CameraNode.setup env (Node.init cfg)).1.metrics.frame_count = some 0 ∧
    (runCalls now (CameraNode.setup env (Node.init cfg)).1 n).2.map resultId
      = (List.range n).map (fun i => some (i + 1)) := by
  obtain ⟨hcap, hcnt, _⟩ := setup_success_state env (Node.init cfg) ho hw
  refine ⟨hcnt, ?_⟩
  have hids := runCalls_ids now n _ _ 0 hcap rfl hcnt ?_
  · rw [hids]
    apply List.map_congr_left
    simp only [List.mem_range, Option.some.injEq]
    intro i _
    omega
  · intro i hi
    exact hrun i hi

/-- C4 witness: three calls against an always-succeeding driver produce
the identifiers 1, 2, 3. -/
theorem camera_frame_ids_one_to_n_witness :
    goodEnv.opens (cfg0.source.getD (Sum.inl 0)) = true ∧
    (∀ i, i < 5 → (goodEnv.frames (cfg0.source.getD (Sum.inl 0)) i).isSome = true) ∧
    (∀ i, i < 3 → (goodEnv.frames (cfg0.source.getD (Sum.inl 0)) (5 + i)).isSome = true) ∧
    ((CameraNode.setup goodEnv (Node.init cfg0)).1.metrics.frame_count = some 0 ∧
     (runCalls 7 (CameraNode.setup goodEnv (Node.init cfg0)).1 3).2.map resultId
       = (List.range 3).map (fun i => some (i + 1))) :=
  ⟨by decide, by decide, by decide,
   camera_frame_ids_one_to_n goodEnv cfg0 3 7 (by decide) (by decide) (by decide)⟩

/-- C5: once the `health_status` metric equals `error`, any number of
further invocations leaves it at `error` — no call path writes any other
value over it. -/
theorem health_error_persists (now n : Nat) (s : NodeState)
    (h : s.metrics.health_status = some Health.error) :
    ((runCalls now s n).1).metrics.health_status = some Health.error :=
  runCalls_preserves_error now n s h

/-- C5 witness: a node in the `error` state stays in `error` after two
more invocations. -/
theorem health_error_persists_witness :
    errNode.metrics.health_status = some Health.error ∧
    ((runCalls 0 errNode 2).1).metrics.health_status = some Health.error :=
  ⟨rfl, health_error_persists 0 2 errNode rfl⟩

/-- C6: when the device cannot be opened, setup still returns (the
embedding is a total function, mirroring the raise-free Python path),
emits an error-level log message, and marks the node initialized
regardless of the failure. -/
theorem setup_open_failure_logs_and_inits (env : DeviceEnv) (cfg : NodeConfig)
    (h : env.opens (cfg.source.getD (Sum.inl 0)) = false) :
    (CameraNode.setup env (Node.init cfg)).1.initFlag = true ∧
    ∃ m, (LogLevel.error, m) ∈ (CameraNode.setup env (Node.init cfg)).2 := by
  refine ⟨setup_initFlag env (Node.init cfg), ?_⟩
  have hl := setup_open_fail_logs env (Node.init cfg) h
  rw [hl]
  exact ⟨_, List.mem_singleton_self _⟩

/-- C6 witness: the statement applied to the driver that opens nothing. -/
theorem setup_open_failure_logs_and_inits_witness :
    badOpenEnv.opens (cfg0.source.getD (Sum.inl 0)) = false ∧
    ((CameraNode.setup badOpenEnv (Node.init cfg0)).1.initFlag = true ∧
     ∃ m, (LogLevel.error, m) ∈ (CameraNode.setup badOpenEnv (Node.init cfg0)).2) :=
  ⟨by decide, setup_open_failure_logs_and_inits badOpenEnv cfg0 (by decide)⟩

/-- C8 counterexample: a node that completed setup holds a capture
object, and `clone()` on it raises (deepcopy cannot pickle the cv2
capture object) instead of yielding an instance — refuting the claim
that `clone()` yields a deep-equal instance for every acquisition
node. -/
theorem clone_after_setup_raises_counterexample :
    Node.clone (CameraNode.setup goodEnv (Node.init cfg0)).1
      = Except.error (PyError.typeError "cannot pickle cv2.VideoCapture object") := rfl

/-- C8 (amended): `clone()` yields an instance exactly when the node
holds no capture object (fresh, or after teardown); that instance has
config and metrics equal to the source (it is the same value, hence
deep-equal) and shares no live Device Handle, there being none.  When a
capture object is held — even one whose open failed — `clone()` raises a
`TypeError` instead of yielding an instance. -/
theorem clone_matches_deepcopy_of_cap (s : NodeState) :
    Node.clone s = (match s.cap with
      | some (some _) =>
        Except.error (PyError.typeError "cannot pickle cv2.VideoCapture object")
      | _ => Except.ok s) := by
  rcases hc : s.cap with _ | cap1
  · have he : ({ s with cap := none } : NodeState) = s := by rw [← hc]
    simp [Node.clone, deepcopyCap, hc, he, Except.map]
  · rcases cap1 with _ | d
    · have he : ({ s with cap := some none } : NodeState) = s := by rw [← hc]
      simp [Node.clone, deepcopyCap, hc, he, Except.map]
    · simp [Node.clone, deepcopyCap, hc, Except.map]

/-- C9: on any node whose `cap` attribute exists (setup has run),
teardown returns normally with the capture reference cleared, and a
second teardown is a no-op that also returns normally and leaves the
reference cleared. -/
theorem teardown_idempotent_and_clears_cap (s : NodeState) (c : Option Device) :
    CameraNode.teardown { s with cap := some c } = Except.ok { s with cap := some none } ∧
    CameraNode.teardown { s with cap := some none } = Except.ok { s with cap := some none } := by
  rcases c with _ | d <;> exact ⟨rfl, rfl⟩

/-- C10: on a freshly constructed node, on which setup never ran, both
teardown and invoke raise an `AttributeError` (the `cap` attribute is
created only by setup) rather than acting as no-ops. -/
theorem fresh_node_teardown_and_call_raise (cfg : NodeConfig) (now : Nat) :
    CameraNode.teardown (Node.init cfg) = Except.error (PyError.attributeError "cap") ∧
    (CameraNode.call now (Node.init cfg)).2.2 = Except.error (PyError.attributeError "cap") :=
  ⟨rfl, rfl⟩

/-- C3 witness: the equivalence instantiated at the always-succeeding
driver and the default configuration. -/
theorem setup_healthy_iff_open_and_five_warmup_reads_witness :
    (CameraNode.setup goodEnv (Node.init cfg0)).1.metrics.health_status = some Health.healthy
      ↔ (goodEnv.opens (cfg0.source.getD (Sum.inl 0)) = true ∧
         ∀ i, i < 5 → (goodEnv.frames (cfg0.source.getD (Sum.inl 0)) i).isSome = true) :=
  setup_healthy_iff_open_and_five_warmup_reads goodEnv cfg0

/-- C8 witness: the amended statement instantiated at a node holding a
capture object. -/
theorem clone_matches_deepcopy_of_cap_witness :
    Node.clone nodeWithDeadDevice = (match nodeWithDeadDevice.cap with
      | some (some _) =>
        Except.error (PyError.typeError "cannot pickle cv2.VideoCapture object")
      | _ => Except.ok nodeWithDeadDevice) :=
  clone_matches_deepcopy_of_cap nodeWithDeadDevice

/-- C9 witness: teardown twice on a concrete node that holds a capture
object. -/
theorem teardown_idempotent_and_clears_cap_witness :
    CameraNode.teardown { nodeWithDeadDevice with cap := some (some deadDevice) }
      = Except.ok { nodeWithDeadDevice with cap := some none } ∧
    CameraNode.teardown { nodeWithDeadDevice with cap := some none }
      = Except.ok { nodeWithDeadDevice with cap := some none } :=
  teardown_idempotent_and_clears_cap nodeWithDeadDevice (some deadDevice)

/-- C10 witness: the statement instantiated at the default configuration
and clock 0. -/
theorem fresh_node_teardown_and_call_raise_witness :
    CameraNode.teardown (Node.init cfg0) = Except.error (PyError.attributeError "cap") ∧
    (CameraNode.call 0 (Node.init cfg0)).2.2 = Except.error (PyError.attributeError "cap") :=
  fresh_node_teardown_and_call_raise cfg0 0
